import Mathlib

/-!
Shallow embedding of the IP-Scanner-v2 repository (Python sources under
src/): `vuln_scanner.py`, `ip_generator.py`, `scanner.py`, `app.py`.
Pure functions of the source become Lean functions; the asynchronous
workers become explicit state-passing loops or a small-step transition
relation; network I/O (HTTP responses, DNS resolution, probe outcomes,
random draws) is modelled by explicit oracle parameters.
-/

namespace IPScanner

/-! ## Findings and risk levels (`vuln_scanner.py`) -/

/-- A vulnerability finding, as the dictionaries built throughout
`vuln_scanner.py`: fields `type`, `name`, `description`, `risk`
(the `type` key is called `ftype` here). -/
structure Finding where
  ftype : String
  name : String
  description : String
  risk : String
deriving Repr, DecidableEq

/-- The ordered list of risk levels used by `summarize_vulns`
(`vuln_scanner.py` line 359): highest first. -/
def riskLevels : List String := ["critical", "high", "medium", "low", "info"]

/-- Numeric rank of a risk level under the ordering
critical > high > medium > low > info; every string outside the five
levels ranks like `info`. -/
def riskRank : String → Nat
  | "critical" => 4
  | "high" => 3
  | "medium" => 2
  | "low" => 1
  | _ => 0

/-- `risk_counts[level]` as computed by the loop in `summarize_vulns`
(`vuln_scanner.py` lines 351-355): the number of findings whose `risk`
equals `level`. -/
def riskCount (findings : List Finding) (level : String) : Nat :=
  (findings.filter (fun f => f.risk == level)).length

/-- The summary dictionary returned by `summarize_vulns`. -/
structure VulnSummary where
  total : Nat
  max_risk : String
deriving Repr, DecidableEq

/-- `summarize_vulns` (`vuln_scanner.py` lines 349-368): `total` is
`len(findings)`; `max_risk` walks the levels from `critical` down and
stops at the first level with a positive count, defaulting to `info`. -/
def summarize_vulns (findings : List Finding) : VulnSummary :=
  { total := findings.length
    max_risk := (riskLevels.find? (fun level => 0 < riskCount findings level)).getD "info" }

/-! ## Security headers (`vuln_scanner.py` lines 16-66) -/

/-- `SECURITY_HEADERS`: ordered association of header name to
(display name, risk); dictionary insertion order of the source. -/
def SECURITY_HEADERS : List (String × String × String) :=
  [ ("Strict-Transport-Security", "HSTS", "medium"),
    ("X-Frame-Options", "X-Frame-Options", "medium"),
    ("X-Content-Type-Options", "X-Content-Type-Options", "low"),
    ("Content-Security-Policy", "CSP", "medium"),
    ("X-XSS-Protection", "X-XSS-Protection", "low"),
    ("Referrer-Policy", "Referrer-Policy", "low"),
    ("Permissions-Policy", "Permissions-Policy", "low") ]

/-- The membership test of `check_security_headers` line 59:
`header_name.lower() in {k.lower() for k in headers.keys()}`. -/
def headerPresent (headers : List (String × String)) (headerName : String) : Bool :=
  headers.any (fun kv => kv.1.toLower == headerName.toLower)

/-- One `missing_header` finding as appended on lines 60-65 (the
description text of the source table is not needed by any claim and is
abbreviated to the display name). -/
def missingHeaderFinding (entry : String × String × String) : Finding :=
  { ftype := "missing_header", name := entry.2.1,
    description := entry.2.1 ++ " missing", risk := entry.2.2 }

/-- `check_security_headers` (`vuln_scanner.py` lines 55-66): one
finding per table entry whose header name is absent from the response
headers under case-insensitive matching. -/
def check_security_headers (headers : List (String × String)) : List Finding :=
  SECURITY_HEADERS.filterMap (fun entry =>
    if headerPresent headers entry.1 then none
    else some (missingHeaderFinding entry))

/-! ## Sensitive paths (`vuln_scanner.py` lines 72-163) -/

/-- One entry of `SENSITIVE_PATHS`. -/
structure PathInfo where
  path : String
  name : String
  risk : String
deriving Repr, DecidableEq

/-- `SENSITIVE_PATHS` (`vuln_scanner.py` lines 72-101), in source order. -/
def SENSITIVE_PATHS : List PathInfo :=
  [ ⟨"/admin", "管理パネル", "high"⟩,
    ⟨"/admin/", "管理パネル", "high"⟩,
    ⟨"/administrator", "管理パネル", "high"⟩,
    ⟨"/wp-admin", "WordPress管理画面", "high"⟩,
    ⟨"/wp-login.php", "WordPressログイン", "high"⟩,
    ⟨"/phpmyadmin", "phpMyAdmin", "critical"⟩,
    ⟨"/phpmyadmin/", "phpMyAdmin", "critical"⟩,
    ⟨"/cpanel", "cPanel", "high"⟩,
    ⟨"/webmail", "Webメール", "medium"⟩,
    ⟨"/.env", "環境変数ファイル", "critical"⟩,
    ⟨"/.git/config", "Git設定ファイル", "critical"⟩,
    ⟨"/.git/HEAD", "Git HEADファイル", "critical"⟩,
    ⟨"/robots.txt", "robots.txt", "info"⟩,
    ⟨"/sitemap.xml", "サイトマップ", "info"⟩,
    ⟨"/.htaccess", "Apache設定ファイル", "high"⟩,
    ⟨"/wp-config.php.bak", "WP設定バックアップ", "critical"⟩,
    ⟨"/server-status", "Apacheサーバーステータス", "medium"⟩,
    ⟨"/server-info", "Apacheサーバー情報", "medium"⟩,
    ⟨"/.DS_Store", "DS_Store", "low"⟩,
    ⟨"/backup.sql", "SQLバックアップ", "critical"⟩,
    ⟨"/dump.sql", "SQLダンプ", "critical"⟩,
    ⟨"/debug", "デバッグページ", "high"⟩,
    ⟨"/api/swagger", "Swagger UI", "medium"⟩,
    ⟨"/api/docs", "API ドキュメント", "medium"⟩,
    ⟨"/elmah.axd", "ELMAH エラーログ", "high"⟩,
    ⟨"/trace.axd", "ASP.NET トレース", "high"⟩ ]

/-- Outcome of the HTTP GET issued by `check_path`: a response with a
status and a decoded body, or any raised exception. -/
inductive HttpResult where
  | response (status : Nat) (body : String)
  | failure
deriving Repr, DecidableEq

/-- `check_path` (`vuln_scanner.py` lines 109-145): status 200 with a
non-empty body yields a finding at the catalog risk; status 403 yields
a finding at risk `low`; every other status, an empty 200 body, or an
exception yields none. -/
def check_path (p : PathInfo) (r : HttpResult) : Option Finding :=
  match r with
  | .failure => none
  | .response status body =>
    if status == 200 then
      if 0 < body.length then
        some { ftype := "exposed_path",
               name := p.name ++ " (" ++ p.path ++ ")",
               description := "path " ++ p.path ++ " accessible, "
                 ++ toString body.length ++ " bytes",
               risk := p.risk }
      else none
    else if status == 403 then
      some { ftype := "exposed_path",
             name := p.name ++ " (" ++ p.path ++ ")",
             description := "path " ++ p.path ++ " exists but 403",
             risk := "low" }
    else none

/-- `check_exposed_paths` (`vuln_scanner.py` lines 104-163): every
catalog entry is probed (the HTTP outcome per path given by the oracle
`http`) and the non-none per-path results are collected in catalog
order. -/
def check_exposed_paths (http : String → HttpResult) : List Finding :=
  SENSITIVE_PATHS.filterMap (fun p => check_path p (http p.path))

/-! ## Address sampler (`ip_generator.py`) -/

/-- An IPv4 network as (network address, prefix length), both over the
32-bit integer view of addresses. -/
def inNetwork (ip : Nat) (net : Nat × Nat) : Bool :=
  ip / 2 ^ (32 - net.2) == net.1 / 2 ^ (32 - net.2)

/-- `EXCLUDED_NETWORKS` (`ip_generator.py` lines 11-28), each network
as (32-bit network address, prefix length), in source order. -/
def EXCLUDED_NETWORKS : List (Nat × Nat) :=
  [ (0x00000000, 8),    -- 0.0.0.0/8
    (0x0A000000, 8),    -- 10.0.0.0/8
    (0x64400000, 10),   -- 100.64.0.0/10
    (0x7F000000, 8),    -- 127.0.0.0/8
    (0xA9FE0000, 16),   -- 169.254.0.0/16
    (0xAC100000, 12),   -- 172.16.0.0/12
    (0xC0000000, 24),   -- 192.0.0.0/24
    (0xC0000200, 24),   -- 192.0.2.0/24
    (0xC0586300, 24),   -- 192.88.99.0/24
    (0xC0A80000, 16),   -- 192.168.0.0/16
    (0xC6120000, 15),   -- 198.18.0.0/15
    (0xC6336400, 24),   -- 198.51.100.0/24
    (0xCB007100, 24),   -- 203.0.113.0/24
    (0xE0000000, 4),    -- 224.0.0.0/4
    (0xF0000000, 4),    -- 240.0.0.0/4
    (0xFFFFFFFF, 32) ]  -- 255.255.255.255/32

/-- `is_valid_global_ip` (`ip_generator.py` lines 31-36). -/
def is_valid_global_ip (ip : Nat) : Bool :=
  !(EXCLUDED_NETWORKS.any (fun net => inNetwork ip net))

/-- Dotted-quad rendering of a 32-bit address, as Python
`str(ipaddress.IPv4Address(n))`. -/
def ipToString (n : Nat) : String :=
  toString (n / 2 ^ 24 % 256) ++ "." ++ toString (n / 2 ^ 16 % 256) ++ "."
    ++ toString (n / 2 ^ 8 % 256) ++ "." ++ toString (n % 256)

/-- `generate_random_ip` (`ip_generator.py` lines 39-46) with the
stream of `random.randint(1, 0xFFFFFFFE)` draws made explicit: the
loop returns the first draw that passes `is_valid_global_ip` (none if
the finite draw list is exhausted). -/
def generate_random_ip : List Nat → Option Nat
  | [] => none
  | d :: rest => if is_valid_global_ip d then some d else generate_random_ip rest

/-! ## Scan state (`scanner.py` lines 22-46) -/

/-- The `scan_state` dictionary (`scanner.py` lines 22-31).
`start_time` is a wall-clock stamp, modelled as an abstract `Nat`. -/
structure ScanState where
  running : Bool
  total_scanned : Nat
  total_found : Nat
  current_rate : Nat
  start_time : Option Nat
  mode : String
  target_total : Nat
  target_done : Nat
deriving Repr, DecidableEq

/-- `reset_scan_state` (`scanner.py` lines 37-46). -/
def reset_scan_state : ScanState :=
  { running := false, total_scanned := 0, total_found := 0, current_rate := 0,
    start_time := none, mode := "random", target_total := 0, target_done := 0 }

/-- The payload of a `status` WebSocket event
(`scanner.py` lines 407-416, 491-502, 508-519). -/
structure StatusEvent where
  running : Bool
  total_scanned : Nat
  total_found : Nat
  current_rate : Nat
  mode : String
  target_total : Nat
  target_done : Nat
deriving Repr, DecidableEq

/-! ## Random-scan worker batches (`scanner.py` lines 357-429) -/

/-- `batch_size = 50` of `scan_worker` (`scanner.py` line 376). -/
def random_batch_size : Nat := 50

/-- `batch_size = 20` of `scan_target_worker` (`scanner.py` line 454). -/
def target_batch_size : Nat := 20

/-- The task list built by one pass of the inner loop of `scan_worker`
(`scanner.py` lines 378-385): 50 iterations, each drawing one fresh
address from the sampler (`ipStream i` is the address of iteration `i`)
and appending one probe per configured port.  The `running` check on
line 379 cannot observe a change mid-loop (the loop body contains no
await point), so when the loop is entered with `running = true` all 50
iterations run. -/
def buildRandomTasks (ports : List Nat) (ipStream : Nat → String) : List (String × Nat) :=
  (List.range random_batch_size).flatMap (fun i => ports.map (fun p => (ipStream i, p)))

/-- One full iteration of the `while` loop of `scan_worker`
(`scanner.py` lines 374-418) with no stop request arriving during the
iteration: the batch is dispatched and joined, each probe that returned
a result (per the oracle `probe`) increments `total_found`, and
`total_scanned` increases by `len(tasks)` (line 398-399).  Wall-clock
rate recomputation (lines 402-416) is not modelled. -/
def scan_worker_iteration (ports : List Nat) (ipStream : Nat → String)
    (probe : String × Nat → Bool) (s : ScanState) : ScanState :=
  let tasks := buildRandomTasks ports ipStream
  { s with total_found := s.total_found + (tasks.filter probe).length,
           total_scanned := s.total_scanned + tasks.length }

/-! ## Target-scan worker (`scanner.py` lines 432-519) -/

/-- `all_tasks = [(ip, port) for ip in target_ips for port in ports]`
(`scanner.py` line 455). -/
def targetPairs : List String → List Nat → List (String × Nat)
  | [], _ => []
  | ip :: rest, ports => ports.map (fun p => (ip, p)) ++ targetPairs rest ports

/-- `all_tasks[i:i + batch_size]` (`scanner.py` line 461). -/
def targetBatch (all : List (String × Nat)) (i : Nat) : List (String × Nat) :=
  (all.drop i).take target_batch_size

/-- The result-processing loop of `scan_target_worker`
(`scanner.py` lines 469-478): for each joined probe result, stop if the
running flag was cleared, otherwise increment `target_done` and, when
the probe produced a result (oracle `probe`), `total_found`. -/
def processTargetResults (probe : String × Nat → Bool) :
    ScanState → List (String × Nat) → ScanState
  | s, [] => s
  | s, r :: rest =>
    if !s.running then s
    else processTargetResults probe
      { s with target_done := s.target_done + 1,
               total_found := s.total_found + (if probe r then 1 else 0) } rest

/-- The batched `for` loop of `scan_target_worker`
(`scanner.py` lines 457-504): while pairs remain and the running flag
holds, take the next batch of up to 20 pairs, join it, process its
results, and add the batch length to `total_scanned` (lines 480-481).
Wall-clock rate recomputation is not modelled. -/
def targetLoop (probe : String × Nat → Bool) :
    ScanState → List (String × Nat) → ScanState
  | s, [] => s
  | s, x :: rest =>
    if !s.running then s
    else
      let batch := (x :: rest).take target_batch_size
      let s1 := processTargetResults probe s batch
      let s2 := { s1 with total_scanned := s1.total_scanned + batch.length }
      targetLoop probe s2 ((x :: rest).drop target_batch_size)
termination_by s pending => pending.length
decreasing_by
  simp only [List.length_drop, List.length_cons, target_batch_size]
  omega

/-- `scan_target_worker` (`scanner.py` lines 432-519) as a state
transformer, for a run during which no stop request arrives:
`target_total` is set to `len(target_ips) * len(ports)` and
`target_done` to 0 (lines 439-440), the batched loop runs, and on exit
`running` is set to `False` (line 507). -/
def scan_target_worker (probe : String × Nat → Bool) (target_ips : List String)
    (ports : List Nat) (s0 : ScanState) : ScanState :=
  let s1 := { s0 with target_total := target_ips.length * ports.length,
                      target_done := 0 }
  let s2 := targetLoop probe s1 (targetPairs target_ips ports)
  { s2 with running := false }

/-- The final `status` event published by `scan_target_worker` on exit
(`scanner.py` lines 508-519): `running` is the literal `False`,
`current_rate` the literal 0, `mode` the literal `"target"`. -/
def finalTargetStatus (s : ScanState) : StatusEvent :=
  { running := false, total_scanned := s.total_scanned,
    total_found := s.total_found, current_rate := 0, mode := "target",
    target_total := s.target_total, target_done := s.target_done }

/-! ## Worker-loop control skeleton (`scanner.py` lines 374-418 and
457-504) as a small-step transition system, for the cancellation
claims.  Transitions happen at the await points of the asyncio worker;
an external stop request (`app.py` line 168) may clear the running flag
between any two of them. -/

/-- Control location of the worker loop: at the top-of-loop flag check,
inside the `asyncio.gather` join of a dispatched batch, processing the
joined results, or exited. -/
inductive WorkerPC where
  | checkLoop
  | gathering
  | processing
  | finished
deriving Repr, DecidableEq

/-- Abstract worker-loop state: control location, the running flag,
the number of probes dispatched so far, the number of probes whose
network call has completed, and the size of the batch currently in
flight. -/
structure WorkerState where
  pc : WorkerPC
  running : Bool
  dispatched : Nat
  completed : Nat
  pending : Nat
deriving Repr, DecidableEq

/-- Small-step transitions of the worker loop.
`stopRequest` is the stop endpoint clearing the flag (it may fire at
any time); `loopExit` is the top-of-loop check observing a cleared flag
(`while scan_state["running"]` / the `for`-loop break); `dispatch`
builds and dispatches a batch of `n` probes to `asyncio.gather`;
`gatherJoin` is the gather returning — every probe of the in-flight
batch completes, unconditionally on the flag; `processDone` finishes
the result-processing loop and returns to the flag check. -/
inductive WorkerStep : WorkerState → WorkerState → Prop where
  | stopRequest (s : WorkerState) : WorkerStep s { s with running := false }
  | loopExit (s : WorkerState) (h1 : s.pc = WorkerPC.checkLoop)
      (h2 : s.running = false) : WorkerStep s { s with pc := WorkerPC.finished }
  | dispatch (s : WorkerState) (n : Nat) (h1 : s.pc = WorkerPC.checkLoop)
      (h2 : s.running = true) :
      WorkerStep s { s with pc := WorkerPC.gathering,
                            dispatched := s.dispatched + n, pending := n }
  | gatherJoin (s : WorkerState) (h : s.pc = WorkerPC.gathering) :
      WorkerStep s { s with pc := WorkerPC.processing,
                            completed := s.completed + s.pending, pending := 0 }
  | processDone (s : WorkerState) (h : s.pc = WorkerPC.processing) :
      WorkerStep s { s with pc := WorkerPC.checkLoop }

/-- Initial worker state: a freshly started run
(`app.py` lines 94-103 / 140-149). -/
def WorkerInit : WorkerState :=
  { pc := WorkerPC.checkLoop, running := true, dispatched := 0,
    completed := 0, pending := 0 }

/-- A worker state reachable from the start of a run by any
interleaving of loop steps and stop requests. -/
def WorkerReachable (s : WorkerState) : Prop :=
  Relation.ReflTransGen WorkerStep WorkerInit s

/-! ## Control endpoints (`app.py`) -/

/-- The allowed port whitelist of `app.py` lines 87 and 125. -/
def VALID_PORTS : List Nat := [80, 443, 8080, 8443]

/-- `valid_ports = [p for p in request.ports if p in (80, 443, 8080, 8443)]`. -/
def filterValidPorts (ports : List Nat) : List Nat :=
  ports.filter (fun p => VALID_PORTS.contains p)

/-- Outcome of `POST /api/scan/start`: either a 400 rejection or a
started scan carrying the port list handed to `scan_worker`. -/
inductive StartResult where
  | started (ports : List Nat)
  | rejected (msg : String)
deriving Repr, DecidableEq

/-- `start_scan` (`app.py` lines 78-105): reject if already running;
filter the requested ports against the whitelist and reject if none
survive; otherwise reset the state, set `running`, `mode` and
`start_time`, and launch `scan_worker` on the filtered ports. -/
def start_scan (s : ScanState) (ports : List Nat) (now : Nat) :
    StartResult × ScanState :=
  if s.running then (StartResult.rejected "スキャンは既に実行中です", s)
  else if (filterValidPorts ports).isEmpty then
    (StartResult.rejected "有効なポートを指定してください（80, 443, 8080, 8443）", s)
  else
    (StartResult.started (filterValidPorts ports),
     { reset_scan_state with
       running := true, mode := "random", start_time := some now })

/-- Outcome of `POST /api/scan/target`: either a 400 rejection or a
started scan carrying the resolved address list and filtered ports
handed to `scan_target_worker`. -/
inductive TargetStartResult where
  | started (ips : List String) (ports : List Nat)
  | rejected (msg : String)
deriving Repr, DecidableEq

/-- Outcome of `POST /api/scan/stop`. -/
inductive StopResult where
  | stopped
  | rejected (msg : String)
deriving Repr, DecidableEq

/-- `stop_scan` (`app.py` lines 160-169): reject if no scan is
running; otherwise clear the running flag. -/
def stop_scan (s : ScanState) : StopResult × ScanState :=
  if !s.running then (StopResult.rejected "スキャンは実行されていません", s)
  else (StopResult.stopped, { s with running := false })

/-! ## Target resolution (`scanner.py` lines 267-354)

`parse_target_ips` works token by token on the split input.  DNS
resolution (`_resolve_hostname`, lines 341-354) is network I/O and is
modelled by an oracle `resolve : String → Option String`; since the
oracle is a pure function, the per-call memoisation cache of the source
is semantically transparent and not modelled.  Python library calls
(`ipaddress.IPv4Address`, `ipaddress.IPv4Network(·, strict=False)`,
`urllib.parse.urlparse(·).hostname`) are embedded at character level
below. -/

/-- `p` is a prefix of `cs` (`str.startswith`). -/
def hasPre : List Char → List Char → Bool
  | [], _ => true
  | _ :: _, [] => false
  | p :: ps, c :: cs => p == c && hasPre ps cs

/-- Split a character list at every occurrence of characters satisfying
`sep`, keeping empty pieces (as `re.split` / `str.split` with a
single-character separator class). -/
def splitOnPred (sep : Char → Bool) : List Char → List (List Char)
  | [] => [[]]
  | c :: rest =>
    let r := splitOnPred sep rest
    if sep c then [] :: r
    else
      match r with
      | [] => [[c]]
      | piece :: more => (c :: piece) :: more

/-- `str.strip()`: remove leading and trailing whitespace. -/
def stripChars (cs : List Char) : List Char :=
  ((cs.dropWhile Char.isWhitespace).reverse.dropWhile Char.isWhitespace).reverse

/-- One octet of a dotted quad as parsed by `ipaddress._parse_octet`:
1-3 ASCII digits, no leading zero on multi-digit octets, value at most
255. -/
def parseOctet (cs : List Char) : Option Nat :=
  if cs.isEmpty then none
  else if decide (3 < cs.length) then none
  else if !cs.all Char.isDigit then none
  else if decide (1 < cs.length) && (cs.head? == some '0') then none
  else
    let v := cs.foldl (fun a c => a * 10 + (c.toNat - 48)) 0
    if v ≤ 255 then some v else none

/-- `ipaddress.IPv4Address` applied to a string: exactly four octets
separated by dots; result is the 32-bit integer value.  The leading
character guard is equivalent to the source behaviour: every character
of an accepted dotted quad is an ASCII digit or a dot, and a string
with any other character has that character inside an octet, which
`_parse_octet` rejects. -/
def parseIPv4Addr (cs : List Char) : Option Nat :=
  if !cs.all (fun c => c.isDigit || c == '.') then none
  else match splitOnPred (fun c => c == '.') cs with
  | [a, b, c, d] =>
    match parseOctet a, parseOctet b, parseOctet c, parseOctet d with
    | some va, some vb, some vc, some vd =>
      some (va * 2 ^ 24 + vb * 2 ^ 16 + vc * 2 ^ 8 + vd)
    | _, _, _, _ => none
  | _ => none

/-- The netmask integer of a prefix length `p`: `p` leading one bits. -/
def maskOf (p : Nat) : Nat := 2 ^ 32 - 2 ^ (32 - p)

/-- `ipaddress`'s netmask argument parsing: a decimal prefix length
0-32, or a dotted quad that is a netmask (leading ones) or a hostmask
(trailing ones). -/
def parseNetmaskPart (cs : List Char) : Option Nat :=
  if !cs.isEmpty && cs.all Char.isDigit then
    let v := cs.foldl (fun a c => a * 10 + (c.toNat - 48)) 0
    if v ≤ 32 then some v else none
  else
    match parseIPv4Addr cs with
    | none => none
    | some m =>
      match (List.range 33).find? (fun p => m == maskOf p) with
      | some p => some p
      | none =>
        (List.range 33).find? (fun p => m ^^^ 0xFFFFFFFF == maskOf p)

/-- `ipaddress.IPv4Network(part, strict=False)`: split on `/` into an
address and an optional netmask part (at most one `/`), parse both, and
mask away the host bits.  Result is (network address, prefix length). -/
def parseIPv4Network (cs : List Char) : Option (Nat × Nat) :=
  match splitOnPred (fun c => c == '/') cs with
  | [a] =>
    match parseIPv4Addr a with
    | some addr => some (addr, 32)
    | none => none
  | [a, m] =>
    match parseIPv4Addr a, parseNetmaskPart m with
    | some addr, some p => some (addr - addr % 2 ^ (32 - p), p)
    | _, _ => none
  | _ => none

/-- `network.hosts()` for an IPv4 network: every address of the block
except the network and broadcast addresses; for /31 and /32 blocks all
addresses of the block (RFC 3021 semantics of `ipaddress`). -/
def networkHosts (base plen : Nat) : List Nat :=
  if 31 ≤ plen then (List.range (2 ^ (32 - plen))).map (fun i => base + i)
  else (List.range (2 ^ (32 - plen) - 2)).map (fun i => base + 1 + i)

/-- `urllib.parse.urlparse(part).hostname` for a `part` beginning with
`http://` or `https://`: the network-location substring runs up to the
first `/`, `?` or `#`; user information before the last `@` is
dropped; a `:port` suffix is dropped; the result is lowercased; an
empty host is `None`. -/
def urlHostname (cs : List Char) : Option String :=
  let afterScheme :=
    if hasPre "https://".data cs then cs.drop 8 else cs.drop 7
  let netloc := afterScheme.takeWhile (fun c => !(c == '/' || c == '?' || c == '#'))
  let hostinfo :=
    if netloc.contains '@' then (netloc.reverse.takeWhile (fun c => !(c == '@'))).reverse
    else netloc
  let host := hostinfo.takeWhile (fun c => !(c == ':'))
  if host.isEmpty then none else some (String.mk (host.map Char.toLower))

/-- One label of the hostname grammar of `scanner.py` line 333:
`[a-zA-Z0-9]([a-zA-Z0-9\-]*[a-zA-Z0-9])?`. -/
def isDomainLabel (cs : List Char) : Bool :=
  match cs with
  | [] => false
  | [c] => c.isAlphanum
  | c :: rest =>
    c.isAlphanum
      && (rest.dropLast.all (fun d => d.isAlphanum || d == '-'))
      && (rest.getLast?.elim false Char.isAlphanum)

/-- The full-string regular-expression check of `scanner.py` line 333:
at least two dot-separated labels, each matching the label grammar.
The leading character guard is equivalent to the regular expression:
its character classes allow only alphanumerics, hyphens and dots, so a
string with any other character never matches. -/
def isDomainLike (cs : List Char) : Bool :=
  if !cs.all (fun c => c.isAlphanum || c == '-' || c == '.') then false
  else
    match splitOnPred (fun c => c == '.') cs with
    | [] => false
    | [_] => false
    | labels => labels.all isDomainLabel

/-- Contribution of one non-empty, stripped token to the result of
`parse_target_ips` (`scanner.py` lines 287-336): URL tokens resolve
their host via DNS; tokens containing `/` are tried as CIDR blocks,
skipped when the prefix length is below 16 and expanded to all host
addresses otherwise; remaining tokens are tried as single IPv4
literals; finally domain-looking tokens (an optional `:port` suffix
removed) are resolved via DNS.  A token matching nothing contributes
no addresses. -/
def tokenIPs (resolve : String → Option String) (cs : List Char) : List String :=
  if hasPre "http://".data cs || hasPre "https://".data cs then
    match urlHostname cs with
    | some h =>
      match resolve h with
      | some ip => [ip]
      | none => []
    | none => []
  else if cs.contains '/' then
    match parseIPv4Network cs with
    | some (base, plen) =>
      if plen < 16 then [] else (networkHosts base plen).map ipToString
    | none =>
      -- `ipaddress.IPv4Network` raised: fall through to the later
      -- branches exactly as the `except ... pass` of lines 318-319 does.
      match parseIPv4Addr cs with
      | some n => [ipToString n]
      | none =>
        let hostname := cs.takeWhile (fun c => !(c == ':'))
        if isDomainLike hostname then
          match resolve (String.mk hostname) with
          | some ip => [ip]
          | none => []
        else []
  else
    match parseIPv4Addr cs with
    | some n => [ipToString n]
    | none =>
      let hostname := cs.takeWhile (fun c => !(c == ':'))
      if isDomainLike hostname then
        match resolve (String.mk hostname) with
        | some ip => [ip]
        | none => []
      else []

/-- The token split of `parse_target_ips` (`scanner.py` lines 286-290):
strip the input, split on runs of commas and newlines, strip each piece
and drop empty pieces. -/
def splitTokens (input : String) : List (List Char) :=
  ((splitOnPred (fun c => c == ',' || c == '\n') (stripChars input.data)).map
    stripChars).filter (fun t => !t.isEmpty)

/-- `parse_target_ips` (`scanner.py` lines 267-338) over the DNS
oracle `resolve`. -/
def parse_target_ips (resolve : String → Option String) (input : String) :
    List String :=
  (splitTokens input).flatMap (tokenIPs resolve)

/-- `start_target_scan` (`app.py` lines 108-157): reject if already
running; resolve the raw target text and reject if no address results;
filter the requested ports against the whitelist and reject if none
survive; reject if addresses times ports exceeds 100000; otherwise
reset the state, set `running`, `mode` and `start_time`, and launch
`scan_target_worker` on the resolved addresses and filtered ports. -/
def start_target_scan (resolve : String → Option String) (s : ScanState)
    (targets : String) (ports : List Nat) (now : Nat) :
    TargetStartResult × ScanState :=
  if s.running then (TargetStartResult.rejected "スキャンは既に実行中です", s)
  else if (parse_target_ips resolve targets).isEmpty then
    (TargetStartResult.rejected "有効なIPアドレスが見つかりません", s)
  else if (filterValidPorts ports).isEmpty then
    (TargetStartResult.rejected "有効なポートを指定してください", s)
  else if 100000 < (parse_target_ips resolve targets).length *
      (filterValidPorts ports).length then
    (TargetStartResult.rejected "ターゲット数が多すぎます", s)
  else
    (TargetStartResult.started (parse_target_ips resolve targets)
      (filterValidPorts ports),
     { reset_scan_state with
       running := true, mode := "target", start_time := some now })

/-! ## Helper lemmas -/

/-- Every risk rank is at most the rank of `critical`. -/
theorem riskRank_le_four (s : String) : riskRank s ≤ 4 := by
  unfold riskRank
  split <;> omega

/-- A risk level has count zero iff no finding carries it. -/
theorem riskCount_eq_zero_iff (fs : List Finding) (level : String) :
    riskCount fs level = 0 ↔ ∀ f ∈ fs, f.risk ≠ level := by
  simp [riskCount, List.length_eq_zero, List.filter_eq_nil_iff]

/-- A risk level has positive count iff some finding carries it. -/
theorem riskCount_pos_iff (fs : List Finding) (level : String) :
    0 < riskCount fs level ↔ ∃ f ∈ fs, f.risk = level := by
  simp [riskCount, List.length_pos_iff_exists_mem, List.mem_filter]

/-- Length of a `filterMap` whose function is a guarded `some`. -/
theorem filterMap_guard_length {α β : Type} (l : List α) (p : α → Bool) (g : α → β) :
    (l.filterMap (fun x => if p x then none else some (g x))).length
      = (l.filter (fun x => !p x)).length := by
  induction l with
  | nil => rfl
  | cons a t ih =>
    by_cases hp : p a = true <;>
      simp [List.filterMap_cons, List.filter_cons, hp, ih]

/-- A guarded-`some` `filterMap` whose guard never fires is a `map`. -/
theorem filterMap_guard_eq_map {α β : Type} (l : List α) (p : α → Bool) (g : α → β)
    (h : ∀ x ∈ l, p x = false) :
    l.filterMap (fun x => if p x then none else some (g x)) = l.map g := by
  induction l with
  | nil => rfl
  | cons a t ih =>
    have ha := h a (by simp)
    simp [List.filterMap_cons, ha]
    exact ih (fun x hx => h x (by simp [hx]))

/-- Length of a `filterMap` equals the number of elements mapped to
`some`. -/
theorem length_filterMap_isSome {α β : Type} (l : List α) (g : α → Option β) :
    (l.filterMap g).length = (l.filter (fun x => (g x).isSome)).length := by
  induction l with
  | nil => rfl
  | cons a t ih =>
    cases hg : g a <;> simp [List.filterMap_cons, List.filter_cons, hg, ih]

/-! ## Claim theorems -/

/-- Claim C3: for every list of findings whose risk values are drawn
from the five levels, `summarize_vulns` returns `total` equal to the
length of the list, and `max_risk` equal to the highest risk level
present under the ordering critical > high > medium > low > info
(encoded by `riskRank`), or `info` if the list is empty. -/
theorem C3_summarize (fs : List Finding) (hv : ∀ f ∈ fs, f.risk ∈ riskLevels) :
    (summarize_vulns fs).total = fs.length ∧
    (fs = [] → (summarize_vulns fs).max_risk = "info") ∧
    (fs ≠ [] →
      (summarize_vulns fs).max_risk ∈ fs.map (fun f => f.risk) ∧
      ∀ f ∈ fs, riskRank f.risk ≤ riskRank (summarize_vulns fs).max_risk) := by
  refine ⟨rfl, ?_, ?_⟩
  · rintro rfl; rfl
  · intro hne
    by_cases hc : 0 < riskCount fs "critical"
    · have hmax : (summarize_vulns fs).max_risk = "critical" := by
        simp [summarize_vulns, riskLevels, List.find?, hc]
      rw [hmax]
      obtain ⟨f, hf, hr⟩ := (riskCount_pos_iff fs "critical").mp hc
      exact ⟨List.mem_map.mpr ⟨f, hf, hr⟩,
        fun g _ => riskRank_le_four g.risk⟩
    · have hc0 : ∀ f ∈ fs, f.risk ≠ "critical" :=
        (riskCount_eq_zero_iff fs "critical").mp (by omega)
      by_cases hh : 0 < riskCount fs "high"
      · have hmax : (summarize_vulns fs).max_risk = "high" := by
          simp [summarize_vulns, riskLevels, List.find?, hc, hh]
        rw [hmax]
        obtain ⟨f, hf, hr⟩ := (riskCount_pos_iff fs "high").mp hh
        refine ⟨List.mem_map.mpr ⟨f, hf, hr⟩, fun g hg => ?_⟩
        have := hv g hg
        simp only [riskLevels, List.mem_cons, List.mem_singleton, List.not_mem_nil, or_false] at this
        rcases this with h | h | h | h | h <;>
          first
            | (exact absurd h (hc0 g hg))
            | (rw [h]; try decide)
      · have hh0 : ∀ f ∈ fs, f.risk ≠ "high" :=
          (riskCount_eq_zero_iff fs "high").mp (by omega)
        by_cases hm : 0 < riskCount fs "medium"
        · have hmax : (summarize_vulns fs).max_risk = "medium" := by
            simp [summarize_vulns, riskLevels, List.find?, hc, hh, hm]
          rw [hmax]
          obtain ⟨f, hf, hr⟩ := (riskCount_pos_iff fs "medium").mp hm
          refine ⟨List.mem_map.mpr ⟨f, hf, hr⟩, fun g hg => ?_⟩
          have := hv g hg
          simp only [riskLevels, List.mem_cons, List.mem_singleton, List.not_mem_nil, or_false] at this
          rcases this with h | h | h | h | h <;>
            first
              | (exact absurd h (hc0 g hg))
              | (exact absurd h (hh0 g hg))
              | (rw [h]; try decide)
        · have hm0 : ∀ f ∈ fs, f.risk ≠ "medium" :=
            (riskCount_eq_zero_iff fs "medium").mp (by omega)
          by_cases hl : 0 < riskCount fs "low"
          · have hmax : (summarize_vulns fs).max_risk = "low" := by
              simp [summarize_vulns, riskLevels, List.find?, hc, hh, hm, hl]
            rw [hmax]
            obtain ⟨f, hf, hr⟩ := (riskCount_pos_iff fs "low").mp hl
            refine ⟨List.mem_map.mpr ⟨f, hf, hr⟩, fun g hg => ?_⟩
            have := hv g hg
            simp only [riskLevels, List.mem_cons, List.mem_singleton, List.not_mem_nil, or_false] at this
            rcases this with h | h | h | h | h <;>
              first
                | (exact absurd h (hc0 g hg))
                | (exact absurd h (hh0 g hg))
                | (exact absurd h (hm0 g hg))
                | (rw [h]; try decide)
          · have hl0 : ∀ f ∈ fs, f.risk ≠ "low" :=
              (riskCount_eq_zero_iff fs "low").mp (by omega)
            by_cases hi : 0 < riskCount fs "info"
            · have hmax : (summarize_vulns fs).max_risk = "info" := by
                simp [summarize_vulns, riskLevels, List.find?, hc, hh, hm, hl, hi]
              rw [hmax]
              obtain ⟨f, hf, hr⟩ := (riskCount_pos_iff fs "info").mp hi
              refine ⟨List.mem_map.mpr ⟨f, hf, hr⟩, fun g hg => ?_⟩
              have := hv g hg
              simp only [riskLevels, List.mem_cons, List.mem_singleton, List.not_mem_nil, or_false] at this
              rcases this with h | h | h | h | h <;>
                first
                  | (exact absurd h (hc0 g hg))
                  | (exact absurd h (hh0 g hg))
                  | (exact absurd h (hm0 g hg))
                  | (exact absurd h (hl0 g hg))
                  | (rw [h]; try decide)
            · exfalso
              obtain ⟨f, hf⟩ := List.exists_mem_of_ne_nil fs hne
              have := hv f hf
              simp only [riskLevels, List.mem_cons, List.mem_singleton, List.not_mem_nil, or_false] at this
              have hi0 : ∀ g ∈ fs, g.risk ≠ "info" :=
                (riskCount_eq_zero_iff fs "info").mp (by omega)
              rcases this with h | h | h | h | h
              · exact hc0 f hf h
              · exact hh0 f hf h
              · exact hm0 f hf h
              · exact hl0 f hf h
              · exact hi0 f hf h

/-- Witness for C3 at a concrete two-element finding list. -/
theorem C3_witness :
    (summarize_vulns [⟨"missing_header", "HSTS", "d", "medium"⟩,
                      ⟨"exposed_path", "p", "d", "critical"⟩]).total = 2 ∧
    (summarize_vulns [⟨"missing_header", "HSTS", "d", "medium"⟩,
                      ⟨"exposed_path", "p", "d", "critical"⟩]).max_risk ∈
      ([⟨"missing_header", "HSTS", "d", "medium"⟩,
        ⟨"exposed_path", "p", "d", "critical"⟩] : List Finding).map
        (fun f => f.risk) := by
  have h := C3_summarize
    [⟨"missing_header", "HSTS", "d", "medium"⟩,
     ⟨"exposed_path", "p", "d", "critical"⟩] (by decide)
  exact ⟨h.1, (h.2.2 (by decide)).1⟩

/-- Claim C8 (amended): the excluded-network list has 16 entries, and
every address returned by `generate_random_ip` — for any draw stream
within `random.randint`'s range [1, 0xFFFFFFFE] — is a 32-bit integer
in [1, 0xFFFFFFFE] that lies in none of the 16 excluded networks. -/
theorem C8_sampler :
    EXCLUDED_NETWORKS.length = 16 ∧
    ∀ (draws : List Nat), (∀ d ∈ draws, 1 ≤ d ∧ d ≤ 0xFFFFFFFE) →
      ∀ ip, generate_random_ip draws = some ip →
        (1 ≤ ip ∧ ip ≤ 0xFFFFFFFE) ∧
        is_valid_global_ip ip = true ∧
        ∀ net ∈ EXCLUDED_NETWORKS, inNetwork ip net = false := by
  refine ⟨rfl, ?_⟩
  intro draws
  induction draws with
  | nil =>
    intro _ ip hgen
    simp [generate_random_ip] at hgen
  | cons d rest ih =>
    intro hb ip hgen
    by_cases hv : is_valid_global_ip d = true
    · rw [generate_random_ip, if_pos hv, Option.some_inj] at hgen
      subst hgen
      refine ⟨hb _ (List.mem_cons_self _ _), hv, ?_⟩
      have hvf := hv
      simp only [is_valid_global_ip, Bool.not_eq_true'] at hvf
      exact fun net hnet => by simpa using List.any_eq_false.mp hvf net hnet
    · rw [generate_random_ip, if_neg hv] at hgen
      exact ih (fun x hx => hb x (by simp [hx])) ip hgen

/-- Witness for C8 at the concrete draw stream [10, 134744072]: the
first draw 10 lies in 0.0.0.0/8 and is rejected, the second is 8.8.8.8
and is returned. -/
theorem C8_witness :
    (1 ≤ 134744072 ∧ 134744072 ≤ 0xFFFFFFFE) ∧
    is_valid_global_ip 134744072 = true := by
  have h := C8_sampler.2 [10, 134744072] (by decide) 134744072 rfl
  exact ⟨h.1, h.2.1⟩

/-- Counterexample for C8 as stated: the excluded-network list of
`ip_generator.py` has 16 entries, not 15. -/
theorem C8_counterexample :
    EXCLUDED_NETWORKS.length ≠ 15 ∧ EXCLUDED_NETWORKS.length = 16 :=
  ⟨by decide, rfl⟩

/-- Claim C7: the header audit checks exactly 7 security headers with
the preassigned risks HSTS medium, X-Frame-Options medium,
X-Content-Type-Options low, CSP medium, X-XSS-Protection low,
Referrer-Policy low, Permissions-Policy low; it emits one
`missing_header` finding per header absent from the response under
case-insensitive name matching; for a response missing all 7, exactly
7 findings are emitted and their maximum risk is `medium`. -/
theorem C7_header_audit :
    SECURITY_HEADERS.length = 7 ∧
    SECURITY_HEADERS.map (fun e => (e.2.1, e.2.2)) =
      [("HSTS", "medium"), ("X-Frame-Options", "medium"),
       ("X-Content-Type-Options", "low"), ("CSP", "medium"),
       ("X-XSS-Protection", "low"), ("Referrer-Policy", "low"),
       ("Permissions-Policy", "low")] ∧
    (∀ hdrs : List (String × String),
      (check_security_headers hdrs).length =
        (SECURITY_HEADERS.filter (fun e => !headerPresent hdrs e.1)).length ∧
      ∀ f ∈ check_security_headers hdrs, f.ftype = "missing_header") ∧
    ∀ hdrs : List (String × String),
      (∀ e ∈ SECURITY_HEADERS, headerPresent hdrs e.1 = false) →
      (check_security_headers hdrs).length = 7 ∧
      (summarize_vulns (check_security_headers hdrs)).max_risk = "medium" := by
  refine ⟨rfl, rfl, ?_, ?_⟩
  · intro hdrs
    constructor
    · exact filterMap_guard_length SECURITY_HEADERS
        (fun e => headerPresent hdrs e.1) missingHeaderFinding
    · intro f hf
      simp only [check_security_headers, List.mem_filterMap] at hf
      obtain ⟨e, -, heq⟩ := hf
      by_cases hp : headerPresent hdrs e.1 = true
      · rw [if_pos hp] at heq; exact absurd heq (by simp)
      · rw [if_neg hp, Option.some_inj] at heq
        rw [← heq]
        rfl
  · intro hdrs h
    have hkey : check_security_headers hdrs =
        SECURITY_HEADERS.map missingHeaderFinding := by
      unfold check_security_headers
      exact filterMap_guard_eq_map SECURITY_HEADERS
        (fun e => headerPresent hdrs e.1) missingHeaderFinding h
    rw [hkey]
    exact ⟨rfl, rfl⟩

/-- Witness for C7 at the empty header map: all 7 headers are missing,
7 findings are emitted and the maximum risk is medium. -/
theorem C7_witness :
    (check_security_headers []).length = 7 ∧
    (summarize_vulns (check_security_headers [])).max_risk = "medium" :=
  C7_header_audit.2.2.2 [] (by decide)

/-- Counterexample for C2 as stated: the sensitive-path catalog of
`vuln_scanner.py` has 26 entries, not 25. -/
theorem C2_counterexample :
    SENSITIVE_PATHS.length ≠ 25 ∧ SENSITIVE_PATHS.length = 26 :=
  ⟨by decide, rfl⟩

/-- Claim C2 (amended): the exposed-path check probes a fixed catalog
of 26 sensitive paths, `/.env` among them at catalog risk `critical`;
for each path an HTTP 200 response with a non-empty body yields one
`exposed_path` finding at the path's catalog risk, an HTTP 403 yields
one `exposed_path` finding at risk `low` regardless of the catalog
risk, and any other status, an empty 200 body, or an error yields no
finding for that path; the aggregate finding count equals the number
of paths whose per-path check produced a finding. -/
theorem C2_exposed_paths :
    SENSITIVE_PATHS.length = 26 ∧
    (∃ p ∈ SENSITIVE_PATHS, p.path = "/.env" ∧ p.risk = "critical") ∧
    (∀ (p : PathInfo) (body : String), 0 < body.length →
      ∃ f, check_path p (HttpResult.response 200 body) = some f ∧
        f.ftype = "exposed_path" ∧ f.risk = p.risk) ∧
    (∀ (p : PathInfo) (body : String),
      ∃ f, check_path p (HttpResult.response 403 body) = some f ∧
        f.ftype = "exposed_path" ∧ f.risk = "low") ∧
    (∀ p : PathInfo, check_path p (HttpResult.response 200 "") = none) ∧
    (∀ (p : PathInfo) (status : Nat) (body : String),
      status ≠ 200 → status ≠ 403 →
      check_path p (HttpResult.response status body) = none) ∧
    (∀ p : PathInfo, check_path p HttpResult.failure = none) ∧
    (∀ http, (check_exposed_paths http).length =
      (SENSITIVE_PATHS.filter
        (fun p => (check_path p (http p.path)).isSome)).length) := by
  refine ⟨rfl, ⟨⟨"/.env", "環境変数ファイル", "critical"⟩, by decide, rfl, rfl⟩,
    ?_, ?_, ?_, ?_, ?_, ?_⟩
  · intro p body hb
    refine ⟨{ ftype := "exposed_path", name := p.name ++ " (" ++ p.path ++ ")",
              description := "path " ++ p.path ++ " accessible, "
                ++ toString body.length ++ " bytes",
              risk := p.risk }, ?_, rfl, rfl⟩
    simp [check_path, hb]
  · intro p body
    refine ⟨{ ftype := "exposed_path", name := p.name ++ " (" ++ p.path ++ ")",
              description := "path " ++ p.path ++ " exists but 403",
              risk := "low" }, ?_, rfl, rfl⟩
    simp [check_path]
  · intro p
    rfl
  · intro p status body h200 h403
    simp [check_path, h200, h403]
  · intro p
    rfl
  · intro http
    exact length_filterMap_isSome SENSITIVE_PATHS
      (fun p => check_path p (http p.path))

/-- Witness for C2 at concrete per-path responses: a 200 with body
"X" on `/.env` produces a finding, a 404 produces none. -/
theorem C2_witness :
    (check_path ⟨"/.env", "環境変数ファイル", "critical"⟩
      (HttpResult.response 200 "X")).isSome = true ∧
    check_path ⟨"/debug", "デバッグページ", "high"⟩
      (HttpResult.response 404 "x") = none := by
  obtain ⟨f, hf, -, -⟩ := C2_exposed_paths.2.2.1
    ⟨"/.env", "環境変数ファイル", "critical"⟩ "X" (by decide)
  exact ⟨by rw [hf]; rfl,
    C2_exposed_paths.2.2.2.2.2.1 ⟨"/debug", "デバッグページ", "high"⟩ 404 "x"
      (by decide) (by decide)⟩

/-- Length of a `flatMap` whose function yields constant-length
lists. -/
theorem flatMap_const_length {α β : Type} (l : List α) (f : α → List β) (k : Nat)
    (h : ∀ a, (f a).length = k) : (l.flatMap f).length = l.length * k := by
  induction l with
  | nil => simp
  | cons a t ih =>
    simp only [List.flatMap_cons, List.length_append, h a, ih, List.length_cons]
    ring

/-- `targetPairs` enumerates addresses times ports. -/
theorem targetPairs_length (ips : List String) (ports : List Nat) :
    (targetPairs ips ports).length = ips.length * ports.length := by
  induction ips with
  | nil => simp [targetPairs]
  | cons ip rest ih =>
    simp only [targetPairs, List.length_append, List.length_map, ih,
      List.length_cons]
    ring

/-- The result-processing loop never changes `total_scanned`. -/
theorem processTargetResults_scanned (probe : String × Nat → Bool)
    (l : List (String × Nat)) (s : ScanState) :
    (processTargetResults probe s l).total_scanned = s.total_scanned := by
  induction l generalizing s with
  | nil => rfl
  | cons r rest ih =>
    by_cases hr : s.running = true
    · simp [processTargetResults, hr, ih]
    · have hf : s.running = false := by simpa using hr
      simp [processTargetResults, hf]

/-- Counterexample for C1 as stated: with the default two-port
configuration the Random-mode batch dispatches 100 (address,port)
pairs, not 50; and a Target-mode queue of 3 pairs yields a batch of 3
pairs, not 20. -/
theorem C1_counterexample :
    (buildRandomTasks [80, 443] (fun _ => "8.8.8.8")).length = 100 ∧
    (buildRandomTasks [80, 443] (fun _ => "8.8.8.8")).length ≠ 50 ∧
    (targetBatch (targetPairs ["1.1.1.1"] [80, 443, 8080]) 0).length = 3 ∧
    (targetBatch (targetPairs ["1.1.1.1"] [80, 443, 8080]) 0).length ≠ 20 :=
  ⟨rfl, by decide, rfl, by decide⟩

/-- Claim C1 (amended): in every run-loop iteration the batch
dispatched to the probe engine consists of 50 fresh addresses times
the configured port list in Random mode — 50·|ports| (address,port)
pairs — and of min(20, remaining) pairs in Target mode (successive
20-pair slices of the queue, the final slice possibly shorter); after
the batch joins, `totalScanned` increases by exactly the number of
pairs in the batch. -/
theorem C1_batches :
    (∀ (ports : List Nat) (ipStream : Nat → String) (probe : String × Nat → Bool)
        (s : ScanState),
      (buildRandomTasks ports ipStream).length = random_batch_size * ports.length ∧
      (scan_worker_iteration ports ipStream probe s).total_scanned =
        s.total_scanned + (buildRandomTasks ports ipStream).length) ∧
    (∀ (all : List (String × Nat)) (i : Nat),
      (targetBatch all i).length = min target_batch_size (all.length - i)) ∧
    (∀ (ips : List String) (ports : List Nat),
      (targetPairs ips ports).length = ips.length * ports.length) ∧
    (∀ (probe : String × Nat → Bool) (s : ScanState) (x : String × Nat)
        (rest : List (String × Nat)), s.running = true →
      targetLoop probe s (x :: rest) =
        targetLoop probe
          { processTargetResults probe s ((x :: rest).take target_batch_size) with
            total_scanned := s.total_scanned +
              min target_batch_size (rest.length + 1) }
          ((x :: rest).drop target_batch_size)) := by
  refine ⟨?_, ?_, targetPairs_length, ?_⟩
  · intro ports ipStream probe s
    constructor
    · have := flatMap_const_length (List.range random_batch_size)
        (fun i => ports.map (fun p => (ipStream i, p))) ports.length
        (fun i => by simp)
      simpa [buildRandomTasks] using this
    · rfl
  · intro all i
    simp [targetBatch, List.length_take, List.length_drop]
  · intro probe s x rest h
    conv_lhs => rw [targetLoop]
    simp only [h, Bool.not_true, Bool.false_eq_true, if_false]
    congr 1
    rw [processTargetResults_scanned, List.length_take, List.length_cons]

/-- Witness for C1 at one port list, stream and state. -/
theorem C1_witness :
    (buildRandomTasks [80] (fun _ => "8.8.8.8")).length =
      random_batch_size * 1 ∧
    (scan_worker_iteration [80] (fun _ => "8.8.8.8") (fun _ => false)
      reset_scan_state).total_scanned =
      reset_scan_state.total_scanned +
        (buildRandomTasks [80] (fun _ => "8.8.8.8")).length ∧
    targetLoop (fun _ => false) { reset_scan_state with running := true }
        [("1.1.1.1", 80)] =
      targetLoop (fun _ => false)
        { processTargetResults (fun _ => false)
            { reset_scan_state with running := true }
            ([("1.1.1.1", 80)].take target_batch_size) with
          total_scanned :=
            { reset_scan_state with running := true }.total_scanned +
              min target_batch_size 1 }
        ([("1.1.1.1", 80)].drop target_batch_size) := by
  obtain ⟨h1, h2⟩ := C1_batches.1 [80] (fun _ => "8.8.8.8") (fun _ => false)
    reset_scan_state
  exact ⟨by simpa using h1, h2,
    C1_batches.2.2.2 (fun _ => false) { reset_scan_state with running := true }
      ("1.1.1.1", 80) [] rfl⟩

/-- Claim C4: calling start while a run is already Running, or stop
while Idle, is rejected with an explicit error and leaves the scan
state unchanged; a second start in succession after a successful start
is rejected and the state stays as the first call left it. -/
theorem C4_state_conflicts :
    (∀ (s : ScanState) (ports : List Nat) (now : Nat), s.running = true →
      start_scan s ports now =
        (StartResult.rejected "スキャンは既に実行中です", s)) ∧
    (∀ s : ScanState, s.running = false →
      stop_scan s = (StopResult.rejected "スキャンは実行されていません", s)) ∧
    (∀ (s : ScanState) (ports ports2 : List Nat) (now now2 : Nat)
        (vp : List Nat) (s1 : ScanState),
      start_scan s ports now = (StartResult.started vp, s1) →
      start_scan s1 ports2 now2 =
        (StartResult.rejected "スキャンは既に実行中です", s1)) := by
  refine ⟨?_, ?_, ?_⟩
  · intro s ports now h
    simp [start_scan, h]
  · intro s h
    simp [stop_scan, h]
  · intro s ports ports2 now now2 vp s1 h
    have hrun : s1.running = true := by
      unfold start_scan at h
      split_ifs at h with h1 h2
      · simp at h
      · simp at h
      · have hs := congrArg Prod.snd h
        simp only at hs
        rw [← hs]
    simp [start_scan, hrun]

/-- Witness for C4 at concrete states: a start on a running state and
a stop on the idle state are both rejected without state change, and a
successful start followed by a second start leaves the second
rejected. -/
theorem C4_witness :
    start_scan { reset_scan_state with running := true } [80] 0 =
      (StartResult.rejected "スキャンは既に実行中です",
       { reset_scan_state with running := true }) ∧
    stop_scan reset_scan_state =
      (StopResult.rejected "スキャンは実行されていません", reset_scan_state) ∧
    start_scan { reset_scan_state with
                 running := true, mode := "random", start_time := some 5 }
        [443] 7 =
      (StartResult.rejected "スキャンは既に実行中です",
       { reset_scan_state with
         running := true, mode := "random", start_time := some 5 }) :=
  ⟨C4_state_conflicts.1 _ [80] 0 rfl,
   C4_state_conflicts.2.1 _ rfl,
   C4_state_conflicts.2.2 reset_scan_state [80] [443] 5 7 [80] _ rfl⟩

/-- Claim C10: at both start endpoints, requested port values outside
the whitelist are silently filtered out rather than causing rejection:
a start request is rejected (with the invalid-ports error) only when
no valid port remains after filtering, and otherwise the scan runs
over exactly the filtered subset of the requested ports. -/
theorem C10_port_filtering :
    (∀ (s : ScanState) (ports : List Nat) (now : Nat), s.running = false →
      (filterValidPorts ports = [] →
        start_scan s ports now =
          (StartResult.rejected
            "有効なポートを指定してください（80, 443, 8080, 8443）", s)) ∧
      (filterValidPorts ports ≠ [] →
        start_scan s ports now =
          (StartResult.started (filterValidPorts ports),
           { reset_scan_state with
             running := true, mode := "random", start_time := some now }))) ∧
    (∀ (resolve : String → Option String) (s : ScanState) (targets : String)
        (ports : List Nat) (now : Nat),
      s.running = false →
      parse_target_ips resolve targets ≠ [] →
      (parse_target_ips resolve targets).length *
        (filterValidPorts ports).length ≤ 100000 →
      (filterValidPorts ports = [] →
        start_target_scan resolve s targets ports now =
          (TargetStartResult.rejected "有効なポートを指定してください", s)) ∧
      (filterValidPorts ports ≠ [] →
        start_target_scan resolve s targets ports now =
          (TargetStartResult.started (parse_target_ips resolve targets)
            (filterValidPorts ports),
           { reset_scan_state with
             running := true, mode := "target", start_time := some now }))) := by
  refine ⟨?_, ?_⟩
  · intro s ports now h
    constructor
    · intro he
      simp [start_scan, h, List.isEmpty_iff, he]
    · intro he
      simp [start_scan, h, List.isEmpty_iff, he]
  · intro resolve s targets ports now h hips hcap
    have hno : ¬ 100000 <
        (parse_target_ips resolve targets).length *
          (filterValidPorts ports).length :=
      Nat.not_lt.mpr hcap
    constructor
    · intro he
      simp [start_target_scan, h, List.isEmpty_iff, hips, he]
    · intro he
      simp [start_target_scan, h, List.isEmpty_iff, hips, he, hno]

/-- Witness for C10: a request mixing the invalid port 9999 with valid
ports starts on exactly the valid subset, and a request with only
invalid ports is rejected. -/
theorem C10_witness :
    start_scan reset_scan_state [80, 9999, 443] 3 =
      (StartResult.started [80, 443],
       { reset_scan_state with
         running := true, mode := "random", start_time := some 3 }) ∧
    start_target_scan (fun _ => none) reset_scan_state "1.2.3.4" [9999] 3 =
      (TargetStartResult.rejected "有効なポートを指定してください",
       reset_scan_state) := by
  refine ⟨?_, ?_⟩
  · exact (C10_port_filtering.1 reset_scan_state [80, 9999, 443] 3 rfl).2
      (by decide)
  · exact (C10_port_filtering.2 (fun _ => none) reset_scan_state "1.2.3.4"
      [9999] 3 rfl (by decide) (by decide)).1 rfl

/-- The result-processing loop with the running flag held: it keeps
the flag, adds the result count to `target_done`, and leaves
`target_total` unchanged. -/
theorem processTargetResults_spec (probe : String × Nat → Bool)
    (l : List (String × Nat)) (s : ScanState) (h : s.running = true) :
    (processTargetResults probe s l).running = true ∧
    (processTargetResults probe s l).target_done = s.target_done + l.length ∧
    (processTargetResults probe s l).target_total = s.target_total := by
  induction l generalizing s with
  | nil => exact ⟨h, rfl, rfl⟩
  | cons r rest ih =>
    have hcond : ¬((!s.running) = true) := by simp [h]
    simp only [processTargetResults]
    rw [if_neg hcond]
    obtain ⟨ih1, ih2, ih3⟩ := ih
      { s with target_done := s.target_done + 1,
               total_found := s.total_found + if probe r then 1 else 0 } h
    refine ⟨ih1, ?_, ih3⟩
    rw [ih2]
    simp only [List.length_cons]
    omega

/-- The batched target loop with the running flag held and no stop
request: the flag survives, `target_done` grows by the full queue
length, `target_total` is unchanged. -/
theorem targetLoop_spec (probe : String × Nat → Bool)
    (pending : List (String × Nat)) (s : ScanState) (h : s.running = true) :
    (targetLoop probe s pending).running = true ∧
    (targetLoop probe s pending).target_done = s.target_done + pending.length ∧
    (targetLoop probe s pending).target_total = s.target_total := by
  suffices H : ∀ (n : Nat) (pending : List (String × Nat)) (s : ScanState),
      pending.length ≤ n → s.running = true →
      (targetLoop probe s pending).running = true ∧
      (targetLoop probe s pending).target_done =
        s.target_done + pending.length ∧
      (targetLoop probe s pending).target_total = s.target_total by
    exact H pending.length pending s le_rfl h
  intro n
  induction n with
  | zero =>
    intro pending s hlen h
    have hnil : pending = [] := List.length_eq_zero.mp (Nat.le_zero.mp hlen)
    subst hnil
    simp only [targetLoop]
    exact ⟨h, by simp, trivial⟩
  | succ n ihn =>
    intro pending s hlen h
    match pending with
    | [] =>
      simp only [targetLoop]
      exact ⟨h, by simp, trivial⟩
    | x :: rest =>
      rw [targetLoop, if_neg (by simp [h])]
      obtain ⟨p1, p2, p3⟩ := processTargetResults_spec probe
        ((x :: rest).take target_batch_size) s h
      obtain ⟨q1, q2, q3⟩ := ihn ((x :: rest).drop target_batch_size)
        { processTargetResults probe s ((x :: rest).take target_batch_size) with
          total_scanned :=
            (processTargetResults probe s
              ((x :: rest).take target_batch_size)).total_scanned +
              ((x :: rest).take target_batch_size).length }
        (by simp only [List.length_drop, List.length_cons] at *
            simp only [target_batch_size] at *
            omega)
        p1
      refine ⟨q1, ?_, ?_⟩
      · rw [q2]
        simp only [List.length_drop, List.length_take, List.length_cons] at *
        omega
      · rw [q3]
        exact p3

/-- Claim C6: a Target-mode run whose queue is exhausted without a
stop request transitions automatically to Idle (`running = false`)
with `target_done = target_total` = addresses times ports, and the
final status event published on exit carries `running = false`. -/
theorem C6_target_exhaustion (probe : String × Nat → Bool)
    (ips : List String) (ports : List Nat) (s0 : ScanState)
    (h : s0.running = true) :
    (scan_target_worker probe ips ports s0).running = false ∧
    (scan_target_worker probe ips ports s0).target_done =
      ips.length * ports.length ∧
    (scan_target_worker probe ips ports s0).target_total =
      ips.length * ports.length ∧
    (finalTargetStatus (scan_target_worker probe ips ports s0)).running
      = false := by
  obtain ⟨l1, l2, l3⟩ := targetLoop_spec probe (targetPairs ips ports)
    { s0 with target_total := ips.length * ports.length, target_done := 0 } h
  refine ⟨rfl, ?_, ?_, rfl⟩
  · show (targetLoop probe
      { s0 with target_total := ips.length * ports.length, target_done := 0 }
      (targetPairs ips ports)).target_done = ips.length * ports.length
    rw [l2, targetPairs_length]
    simp
  · show (targetLoop probe
      { s0 with target_total := ips.length * ports.length, target_done := 0 }
      (targetPairs ips ports)).target_total = ips.length * ports.length
    rw [l3]

/-- Witness for C6 at the spec scenario: 3 resolved addresses times 2
ports exhaust after 6 probes and auto-transition to Idle with
`target_done = target_total = 6`. -/
theorem C6_witness :
    (scan_target_worker (fun _ => false) ["1.1.1.1", "2.2.2.2", "3.3.3.3"]
      [80, 443] { reset_scan_state with running := true }).running = false ∧
    (scan_target_worker (fun _ => false) ["1.1.1.1", "2.2.2.2", "3.3.3.3"]
      [80, 443] { reset_scan_state with running := true }).target_done = 6 ∧
    (scan_target_worker (fun _ => false) ["1.1.1.1", "2.2.2.2", "3.3.3.3"]
      [80, 443] { reset_scan_state with running := true }).target_total = 6 := by
  have h := C6_target_exhaustion (fun _ => false)
    ["1.1.1.1", "2.2.2.2", "3.3.3.3"] [80, 443]
    { reset_scan_state with running := true } rfl
  exact ⟨h.1, h.2.1, h.2.2.1⟩

/-- Claim C5: in the worker-loop transition system, for every state
reachable from the start of a run under any interleaving of loop steps
and stop requests, the probes completed plus the batch in flight equal
the probes dispatched, the in-flight batch is empty except while the
gather join is pending, and in particular when the loop has exited
(the state transitions to Idle) every dispatched probe has completed —
a dispatched batch always joins before the transition to Idle, even if
a stop request arrives while the batch is in flight. -/
theorem C5_batch_join_before_idle (s : WorkerState) (h : WorkerReachable s) :
    s.completed + s.pending = s.dispatched ∧
    (s.pc ≠ WorkerPC.gathering → s.pending = 0) ∧
    (s.pc = WorkerPC.finished → s.completed = s.dispatched) := by
  induction h with
  | refl => exact ⟨rfl, fun _ => rfl, fun _ => rfl⟩
  | @tail b c hr hstep ih =>
    obtain ⟨ih1, ih2, ih3⟩ := ih
    cases hstep with
    | stopRequest =>
      exact ⟨ih1, ih2, ih3⟩
    | loopExit h1 h2 =>
      have hp0 : b.pending = 0 := ih2 (by rw [h1]; decide)
      refine ⟨ih1, fun _ => hp0, fun _ => ?_⟩
      dsimp only
      omega
    | dispatch n h1 h2 =>
      have hp0 : b.pending = 0 := ih2 (by rw [h1]; decide)
      refine ⟨?_, fun hne => absurd rfl hne, fun hpc => nomatch hpc⟩
      dsimp only
      omega
    | gatherJoin h1 =>
      refine ⟨?_, fun _ => rfl, fun hpc => nomatch hpc⟩
      dsimp only
      omega
    | processDone h1 =>
      have hp0 : b.pending = 0 := ih2 (by rw [h1]; decide)
      exact ⟨ih1, fun _ => hp0, fun hpc => nomatch hpc⟩

/-- Witness for C5: a concrete run that dispatches a batch of 3
probes, receives a stop request while the batch is in flight, and
still joins the whole batch before exiting; the theorem applied to the
reached Idle state gives completed = dispatched. -/
theorem C5_witness :
    WorkerReachable ⟨WorkerPC.finished, false, 3, 3, 0⟩ ∧
    (⟨WorkerPC.finished, false, 3, 3, 0⟩ : WorkerState).completed =
      (⟨WorkerPC.finished, false, 3, 3, 0⟩ : WorkerState).dispatched := by
  have t1 : WorkerStep ⟨WorkerPC.checkLoop, true, 0, 0, 0⟩
      ⟨WorkerPC.gathering, true, 3, 0, 3⟩ :=
    WorkerStep.dispatch _ 3 rfl rfl
  have t2 : WorkerStep ⟨WorkerPC.gathering, true, 3, 0, 3⟩
      ⟨WorkerPC.gathering, false, 3, 0, 3⟩ :=
    WorkerStep.stopRequest _
  have t3 : WorkerStep ⟨WorkerPC.gathering, false, 3, 0, 3⟩
      ⟨WorkerPC.processing, false, 3, 3, 0⟩ :=
    WorkerStep.gatherJoin _ rfl
  have t4 : WorkerStep ⟨WorkerPC.processing, false, 3, 3, 0⟩
      ⟨WorkerPC.checkLoop, false, 3, 3, 0⟩ :=
    WorkerStep.processDone _ rfl
  have t5 : WorkerStep ⟨WorkerPC.checkLoop, false, 3, 3, 0⟩
      ⟨WorkerPC.finished, false, 3, 3, 0⟩ :=
    WorkerStep.loopExit _ rfl rfl
  have hreach : WorkerReachable ⟨WorkerPC.finished, false, 3, 3, 0⟩ :=
    Relation.ReflTransGen.tail
      (Relation.ReflTransGen.tail
        (Relation.ReflTransGen.tail
          (Relation.ReflTransGen.tail
            (Relation.ReflTransGen.tail Relation.ReflTransGen.refl t1) t2)
          t3) t4) t5
  exact ⟨hreach, (C5_batch_join_before_idle _ hreach).2.2 rfl⟩

/-- Every character of a prefix occurs in the full list. -/
theorem hasPre_mem {p cs : List Char} (h : hasPre p cs = true) :
    ∀ x ∈ p, x ∈ cs := by
  induction p generalizing cs with
  | nil => intro x hx; simp at hx
  | cons a q ih =>
    cases cs with
    | nil => simp [hasPre] at h
    | cons c rest =>
      simp only [hasPre, Bool.and_eq_true, beq_iff_eq] at h
      obtain ⟨hac, hrest⟩ := h
      intro x hx
      rcases List.mem_cons.mp hx with hxa | hxq
      · subst hxa; rw [hac]; exact List.mem_cons_self _ _
      · exact List.mem_cons_of_mem _ (ih hrest x hxq)

/-- `takeWhile` keeps the whole list when every element satisfies the
predicate. -/
theorem takeWhile_eq_self_of_all {p : Char → Bool} {cs : List Char}
    (h : ∀ c ∈ cs, p c = true) : cs.takeWhile p = cs := by
  induction cs with
  | nil => rfl
  | cons c rest ih =>
    simp [List.takeWhile_cons, h c (List.mem_cons_self _ _),
      ih (fun d hd => h d (List.mem_cons_of_mem _ hd))]

/-- A string containing a slash is not an IPv4 address literal. -/
theorem parseIPv4Addr_slash {cs : List Char} (h : '/' ∈ cs) :
    parseIPv4Addr cs = none := by
  have hall : cs.all (fun c => c.isDigit || c == '.') = false :=
    List.all_eq_false.mpr ⟨'/', h, by decide⟩
  simp [parseIPv4Addr, hall]

/-- A string containing a slash does not match the hostname grammar. -/
theorem isDomainLike_slash {cs : List Char} (h : '/' ∈ cs) :
    isDomainLike cs = false := by
  have hall : cs.all (fun c => c.isAlphanum || c == '-' || c == '.') = false :=
    List.all_eq_false.mpr ⟨'/', h, by decide⟩
  simp [isDomainLike, hall]

/-- Counterexample for C9 as stated: the token `http://example.com/x`
contains `/` but is not parsed as an IPv4 network — it is handled by
the URL rule and contributes the DNS-resolved address of its host. -/
theorem C9_counterexample :
    ('/' ∈ "http://example.com/x".data) ∧
    parseIPv4Network "http://example.com/x".data = none ∧
    parse_target_ips
      (fun h => if h == "example.com" then some "93.184.216.34" else none)
      "http://example.com/x" = ["93.184.216.34"] ∧
    parse_target_ips
      (fun h => if h == "example.com" then some "93.184.216.34" else none)
      "http://example.com/x" ≠ ([] : List String) := by
  refine ⟨by decide, rfl, rfl, by decide⟩

set_option maxRecDepth 20000 in
/-- Claim C9 (amended): for every input token containing `/` but no
`:` (tokens with a colon — URLs and port-suffixed hostnames — are
handled by the URL and hostname rules instead), the resolver attempts
to parse the token as an IPv4 network: on success it contributes zero
addresses when the prefix length is less than 16 and all host
addresses of the block otherwise, and on parse failure it contributes
zero addresses; in particular `192.168.1.0/24` contributes exactly the
254 host addresses of the block and `10.0.0.0/8` contributes zero. -/
theorem C9_cidr :
    (∀ (resolve : String → Option String) (t : List Char),
      '/' ∈ t → ':' ∉ t →
      tokenIPs resolve t =
        (match parseIPv4Network t with
         | some (base, plen) =>
           if plen < 16 then [] else (networkHosts base plen).map ipToString
         | none => [])) ∧
    (∀ resolve : String → Option String,
      parse_target_ips resolve "192.168.1.0/24" =
        (networkHosts 0xC0A80100 24).map ipToString ∧
      (parse_target_ips resolve "192.168.1.0/24").length = 254) ∧
    (∀ resolve : String → Option String,
      parse_target_ips resolve "10.0.0.0/8" = []) := by
  refine ⟨?_, fun resolve => ⟨rfl, rfl⟩, fun resolve => rfl⟩
  intro resolve t h1 h2
  have hH7 : hasPre "http://".data t = false := by
    cases hhp : hasPre "http://".data t
    · rfl
    · exact absurd (hasPre_mem hhp ':' (by decide)) h2
  have hH8 : hasPre "https://".data t = false := by
    cases hhp : hasPre "https://".data t
    · rfl
    · exact absurd (hasPre_mem hhp ':' (by decide)) h2
  have hcont : t.contains '/' = true := by simpa using h1
  simp only [tokenIPs, hH7, hH8, Bool.or_self, Bool.false_eq_true, if_false,
    hcont, if_true]
  cases hnet : parseIPv4Network t with
  | some bp =>
    obtain ⟨b, p⟩ := bp
    simp [hnet]
  | none =>
    have htw : t.takeWhile (fun c => !(c == ':')) = t :=
      takeWhile_eq_self_of_all (fun c hc => by
        simp only [Bool.not_eq_true']
        exact beq_eq_false_iff_ne.mpr (fun hcc => h2 (hcc ▸ hc)))
    simp [hnet, parseIPv4Addr_slash h1, htw, isDomainLike_slash h1]

/-- Witness for C9 at the token `10.0.0.0/8`: its contribution matches
the CIDR rule (and is empty, since the prefix is below 16). -/
theorem C9_witness :
    tokenIPs (fun _ => none) "10.0.0.0/8".data =
      (match parseIPv4Network "10.0.0.0/8".data with
       | some (base, plen) =>
         if plen < 16 then [] else (networkHosts base plen).map ipToString
       | none => []) :=
  C9_cidr.1 (fun _ => none) "10.0.0.0/8".data (by decide) (by decide)

end IPScanner
